import Mathlib

/-!
Shallow embedding of src/buddy.c, a fixed-arena buddy allocator skeleton.

Addresses are modelled as byte offsets from the start of g_memory, so
PAGE_TO_ADDR(i) becomes i * PAGE_SIZE and the macro BUDDY_ADDR, which
subtracts and re-adds g_memory around an exclusive-or, becomes a pure
exclusive-or on offsets.  The intrusive doubly linked free lists are
modelled as lists of page indices, one list per order.
-/

set_option maxRecDepth 100000

/-- MIN_ORDER from src/buddy.c line 25. -/
def MIN_ORDER : Nat := 12

/-- MAX_ORDER from src/buddy.c line 26. -/
def MAX_ORDER : Nat := 20

/-- PAGE_SIZE = 1 << MIN_ORDER, src/buddy.c line 28. -/
def PAGE_SIZE : Nat := 1 <<< MIN_ORDER

/-- Number of entries of g_pages: (1 << MAX_ORDER) / PAGE_SIZE, line 71. -/
def n_pages : Nat := (1 <<< MAX_ORDER) / PAGE_SIZE

/-- The order field of a page is a uint8_t; buddy_init assigns -1 to it
(line 92), which stores 255.  The spec calls this the not-a-head sentinel. -/
def NOT_HEAD : Nat := 2 ^ 8 - 1

/-- page_t, src/buddy.c lines 52-58.  location is the offset of the first
byte of the page from g_memory; the intrusive list member is modelled by
membership of the page index in a free_area list of the state. -/
structure page_t where
  location : Nat
  index : Nat
  order : Nat
  deriving DecidableEq

/-- The mutable globals of src/buddy.c lines 64-71: free_area, indexed by
order 0..MAX_ORDER (only indices MIN_ORDER..MAX_ORDER are ever initialized
or read; each list holds the page indices of the free block heads of that
order, front to back), and g_pages.  The byte array g_memory itself carries
no allocator state. -/
structure BuddyState where
  free_area : List (List Nat)
  pages : List page_t
  deriving DecidableEq

/-- The orders MIN_ORDER..MAX_ORDER in ascending order: the index range of
the loops at lines 96, 126 and 187. -/
def order_range : List Nat :=
  (List.range (MAX_ORDER + 1 - MIN_ORDER)).map (fun j => MIN_ORDER + j)

/-- buddy_init, src/buddy.c lines 84-102: every page gets index i, location
PAGE_TO_ADDR(i) and order -1 (stored as 255 by the uint8_t field); the free
lists of orders MIN_ORDER..MAX_ORDER are initialized empty; then
list_add of g_pages[0].list into free_area[MAX_ORDER] makes page 0 the
single element of the MAX_ORDER list. -/
def buddy_init : BuddyState :=
  { pages := (List.range n_pages).map (fun i =>
      { location := i * PAGE_SIZE, index := i, order := NOT_HEAD }),
    free_area := (List.range (MAX_ORDER + 1)).map (fun o =>
      if o = MAX_ORDER then [0] else []) }

/-- The order search loop of buddy_alloc, src/buddy.c lines 126-136.
desired_order and upper_order are C ints starting at -1; the loop runs i
over MIN_ORDER..MAX_ORDER, records in desired_order the first i with
size <= (1 << i), and breaks with upper_order = i at the first i at or
after that point whose free list is non-empty (list_empty holds exactly of
a list with no elements).  The Bool in the accumulator models the break. -/
def find_orders (size : Int) (s : BuddyState) : Int × Int :=
  let r := order_range.foldl
    (fun acc i =>
      if acc.2.2 then acc
      else
        let d := if acc.1 < (MIN_ORDER : Int) ∧ size ≤ ((2 ^ i : Nat) : Int)
                 then (i : Int) else acc.1
        if (MIN_ORDER : Int) ≤ d ∧ s.free_area.getD i [] ≠ [] then (d, (i : Int), true)
        else (d, acc.2.1, false))
    ((-1 : Int), (-1 : Int), false)
  (r.1, r.2.1)

/-- The two ways buddy_alloc leaves defined C behaviour.  sentinelSplit:
the split loop (lines 141-150) is entered with i = upper_order, and its
first iteration runs temp = list_entry of the address of free_area[i],
which is free_area[i] itself reinterpreted as a page_t (the list member
comes first, so the container_of offset is 0): the working block is the
list sentinel, not a free block; list_del then unlinks the sentinel from
its own list, and the store to the order member of that fake page_t lands
32 bytes past the start of the 16-byte object free_area[i], out of bounds
(line 145).  uninitRead: the loop is not entered, and line 152 reads the
local pointer allocation, which was never assigned. -/
inductive AllocUB where
  | sentinelSplit (upper : Int)
  | uninitRead
  deriving DecidableEq

/-- Result of buddy_alloc.  addr would model the returned
allocation->location as an offset from g_memory, but no execution path of
the source reaches a defined return: see AllocUB. -/
inductive AllocResult where
  | addr (a : Nat)
  | ub (u : AllocUB)
  deriving DecidableEq

/-- buddy_alloc, src/buddy.c lines 118-160.  After the order search, the
split loop for (i = upper_order; i > desired_order; i--) is entered exactly
when upper_order > desired_order, and its first iteration already performs
the out-of-bounds store described at AllocUB.sentinelSplit; when the loop
is not entered, the test of allocation against NULL at line 152 reads the
uninitialized local allocation.  Every path therefore meets undefined
behaviour before a value is returned, and the embedding returns the marker
of the first undefined operation reached. -/
def buddy_alloc (size : Int) (s : BuddyState) : AllocResult :=
  let du := find_orders size s
  if du.1 < du.2 then AllocResult.ub (AllocUB.sentinelSplit du.2)
  else AllocResult.ub AllocUB.uninitRead

/-- buddy_free, src/buddy.c lines 171-177: the body is empty apart from a
TODO comment and a commented-out declaration, so the call changes nothing.
addr is an offset from g_memory. -/
def buddy_free (addr : Nat) (s : BuddyState) : BuddyState := s

/-- The counter of list_for_each in buddy_dump (lines 190-192): cnt starts
at 0 and is incremented once per list element. -/
def list_count : List Nat → Nat
  | [] => 0
  | _ :: rest => list_count rest + 1

/-- buddy_dump, src/buddy.c lines 184-196: for each order o from MIN_ORDER
to MAX_ORDER in ascending order it walks free_area[o] counting elements and
prints the count and (1 << o) / 1024; the body performs no write to any
global.  The embedding returns the printed (count, kilobytes) pairs
together with the unchanged state. -/
def buddy_dump (s : BuddyState) : List (Nat × Nat) × BuddyState :=
  (order_range.map (fun o => (list_count (s.free_area.getD o []), (1 <<< o) / 1024)), s)

/-- BUDDY_ADDR, src/buddy.c lines 36-37, on offsets from g_memory: the
macro subtracts g_memory, applies exclusive-or with (1 << o) and adds
g_memory back, so on offsets it is offset XOR (1 << o). -/
def BUDDY_ADDR (addr : Nat) (o : Nat) : Nat := addr ^^^ (1 <<< o)

/-- A state with every free list empty (orders MIN_ORDER..MAX_ORDER all
exhausted), exercising the out-of-memory path of buddy_alloc and the
reinsertion obligation of buddy_free. -/
def all_lists_empty : BuddyState :=
  { free_area := List.replicate (MAX_ORDER + 1) [], pages := buddy_init.pages }

theorem list_count_eq_length (l : List Nat) : list_count l = l.length := by
  induction l with
  | nil => rfl
  | cons x rest ih => simp [list_count, ih]

/-- Claim C4: after buddy_init, every page metadata entry holds the
not-a-head sentinel in its order field, every free list of orders
MIN_ORDER..MAX_ORDER other than the MAX_ORDER one is empty, and the
MAX_ORDER free list holds exactly one block, headed by page index 0. -/
theorem buddy_init_state :
    buddy_init.pages.length = n_pages ∧
    buddy_init.pages.all (fun p => p.order == NOT_HEAD) = true ∧
    (order_range.filter (fun o => o != MAX_ORDER)).all
      (fun o => buddy_init.free_area.getD o [0] == []) = true ∧
    buddy_init.free_area.getD MAX_ORDER [] = [0] := by
  decide

/-- Claim C7: for every order k in MIN_ORDER..MAX_ORDER and every offset a
aligned to an order-k boundary inside the arena, the buddy address
computation applied twice at order k returns a itself. -/
theorem BUDDY_ADDR_involutive (k a : Nat)
    (h1 : MIN_ORDER ≤ k) (h2 : k ≤ MAX_ORDER)
    (h3 : a % 2 ^ k = 0) (h4 : a < 2 ^ MAX_ORDER) :
    BUDDY_ADDR (BUDDY_ADDR a k) k = a := by
  unfold BUDDY_ADDR
  rw [Nat.xor_assoc, Nat.xor_self, Nat.xor_zero]

/-- Witness for claim C7 at order k = 12 and offset a = 4096. -/
theorem BUDDY_ADDR_involutive_example :
    MIN_ORDER ≤ 12 ∧ 12 ≤ MAX_ORDER ∧ 4096 % 2 ^ 12 = 0 ∧
      4096 < 2 ^ MAX_ORDER ∧ BUDDY_ADDR (BUDDY_ADDR 4096 12) 12 = 4096 :=
  ⟨by decide, by decide, by decide, by decide,
    BUDDY_ADDR_involutive 12 4096 (by decide) (by decide) (by decide) (by decide)⟩

/-- Claim C9: buddy_dump reports, for each order from MIN_ORDER to
MAX_ORDER in ascending order, the number of free blocks on that order free
list, and leaves the whole allocator state unchanged. -/
theorem buddy_dump_reports_counts (s : BuddyState) :
    order_range = [12, 13, 14, 15, 16, 17, 18, 19, 20] ∧
    (buddy_dump s).2 = s ∧
    (buddy_dump s).1 =
      order_range.map (fun o => ((s.free_area.getD o []).length, 2 ^ o / 1024)) := by
  refine ⟨by decide, rfl, ?_⟩
  simp [buddy_dump, list_count_eq_length, Nat.shiftLeft_eq]

/-- Claim C10: buddy_free returns without modifying any free list, page
metadata entry or other allocator state, for every address argument. -/
theorem buddy_free_is_noop (addr : Nat) (s : BuddyState) : buddy_free addr s = s := rfl

/-- Claim C1, code_bug evidence: on the first allocation after buddy_init,
buddy_alloc 4096 computes desired_order = 12 and upper_order = 20, enters
the split loop, and its first iteration takes the list sentinel
free_area[20] itself as the working block and performs the out-of-bounds
store modelled by AllocUB.sentinelSplit; the halving the claim describes
(buddy metadata order set to k - 1) never happens, since lines 145 and 148
assign order i, not i - 1, through that broken pointer. -/
theorem alloc_split_takes_sentinel :
    buddy_alloc 4096 buddy_init = AllocResult.ub (AllocUB.sentinelSplit 20) := by
  decide

/-- Claim C2, code_bug evidence: buddy_free has an empty body, so freeing
the order-12 block at offset 0 in a state with every free list empty
inserts nothing: afterwards the MIN_ORDER free list still does not contain
page 0, and the whole state is unchanged, contrary to the
merge-and-reinsert loop that the claim and the function comment in the
source describe. -/
theorem free_reinserts_nothing :
    ((buddy_free 0 all_lists_empty).free_area.getD MIN_ORDER []).contains 0 = false ∧
    buddy_free 0 all_lists_empty = all_lists_empty := by
  decide

/-- Claim C3, code_bug evidence: buddy_free never reinserts a block, so
dump counts are not restored by a round trip: in the state the round trip
would have to recover from (the arena block removed from the MAX_ORDER
list), freeing offset 0 leaves every count 0, while the pre-allocation dump
of buddy_init has one MAX_ORDER block. -/
theorem round_trip_not_restored :
    (buddy_dump (buddy_free 0 all_lists_empty)).1 ≠ (buddy_dump buddy_init).1 := by
  decide

/-- Claim C5, code_bug evidence: with every free list empty and size 4096,
desired_order = 12 and upper_order stays -1; buddy_alloc signals no
OutOfMemory failure: the split loop is skipped and the code reads the
uninitialized local allocation at line 152. -/
theorem alloc_out_of_memory_is_undefined :
    buddy_alloc 4096 all_lists_empty = AllocResult.ub AllocUB.uninitRead := by
  decide

/-- Claim C6, code_bug evidence: for size 2 ^ MAX_ORDER + 1 = 1048577 both
desired_order and upper_order stay -1; buddy_alloc signals no SizeTooLarge
failure: it reads the uninitialized local allocation at line 152, and its
NULL branch would index free_area[-1]. -/
theorem alloc_oversize_is_undefined :
    buddy_alloc ((2 ^ MAX_ORDER + 1 : Nat) : Int) buddy_init =
      AllocResult.ub AllocUB.uninitRead := by
  decide

/-- Claim C8, code_bug evidence: even the simplest successful allocation
the capacity invariant quantifies over, the exact-fit request of
2 ^ MAX_ORDER bytes right after buddy_init (desired_order = upper_order =
20), has no defined result: the split loop is skipped and line 152 reads
the uninitialized local allocation, so no sequence of successful alloc
calls exists whose block sizes the claimed invariant could sum. -/
theorem alloc_exact_fit_is_undefined :
    buddy_alloc ((2 ^ MAX_ORDER : Nat) : Int) buddy_init =
      AllocResult.ub AllocUB.uninitRead := by
  decide
